import Mathlib

/-!
Verification of the Documentation Registry and Export Pipeline.

The development embeds two source files:
* the export lambda (getoas3): an HTTP handler that asks the hosting
  platform (API Gateway getExport) for the merged OAS3 document and
  returns it with a CORS header; the platform interaction is modelled as
  an explicit oracle and the callback side effects as an accumulated
  trace;
* the CDK stack (api-docs-stack): the construction of the documentation
  version snapshot and the four documentation parts, each addressed by a
  location key.
-/

namespace ApiDocs

/-! Export handler embedding (src/lambda/getoas3.ts). -/

/-- Incoming HTTP event of the handler. The source never reads any of
these fields; they are kept so independence from the event is a real
statement. -/
structure HttpEvent where
  rawPath : String
  rawQueryString : String
  headers : List (String × String)
  body : Option String
deriving DecidableEq

/-- Process environment of the lambda, as configured by the stack
(restApiId, stage, extensions). -/
structure Env where
  restApiId : String
  stage : String
  extensions : String
deriving DecidableEq

/-- Request sent to the platform export capability (GetExportRequest). -/
structure GetExportRequest where
  restApiId : String
  stageName : String
  exportType : String
  parameters : List (String × String)
deriving DecidableEq

/-- The getExportParams object built by the handler: restApiId and stage
come from the environment, exportType and parameters are literals. -/
def getExportParams (env : Env) : GetExportRequest :=
  { restApiId := env.restApiId
    stageName := env.stage
    exportType := "oas30"
    parameters := [("extensions", "documentation")] }

/-- Successful platform export payload; body holds the OAS3 document
bytes (utf8-decoded). -/
structure ExportData where
  body : String
deriving DecidableEq

/-- Error value delivered by the platform to the SDK callback. -/
structure ApiError where
  message : String
deriving DecidableEq

/-- HTTP response envelope passed to the lambda callback on success. -/
structure HttpResponse where
  statusCode : Nat
  headers : List (String × String)
  body : String
deriving DecidableEq

/-- One invocation of the lambda callback: either with an error or with
a response envelope. -/
inductive CallbackCall where
  | failure (e : ApiError)
  | success (r : HttpResponse)
deriving DecidableEq

/-- Observable outcome of one handler run: the requests issued to the
platform, the callback invocations in order, and whether the handler
body raised an uncaught TypeError (dereference of a missing value). -/
structure HandlerOutcome where
  platformCalls : List GetExportRequest
  callbackCalls : List CallbackCall
  crashed : Bool
deriving DecidableEq

/-- The callback the handler passes to getExport, translated line by
line: when err is set the lambda callback is invoked with it, and then
WITHOUT a return the code falls through to build the success response
from data.body; when data is absent that dereference raises. -/
def getExportCallback (err : Option ApiError) (data : Option ExportData) :
    List CallbackCall × Bool :=
  let errCalls : List CallbackCall :=
    match err with
    | some e => [.failure e]
    | none => []
  match data with
  | none => (errCalls, true)
  | some d =>
      (errCalls ++ [.success
        { statusCode := 200
          headers := [("Access-Control-Allow-Origin", "*")]
          body := d.body }], false)

/-- The handler: builds getExportParams from the environment, issues the
platform call, and runs the SDK callback on its result. Per the SDK
contract the callback receives either (err, no data) or (no err, data).
The incoming event is never consulted. -/
def handler (env : Env) (event : HttpEvent)
    (platform : GetExportRequest → Except ApiError ExportData) : HandlerOutcome :=
  let params := getExportParams env
  let result := platform params
  let err : Option ApiError :=
    match result with
    | .error e => some e
    | .ok _ => none
  let data : Option ExportData :=
    match result with
    | .error _ => none
    | .ok d => some d
  let run := getExportCallback err data
  { platformCalls := [params]
    callbackCalls := run.1
    crashed := run.2 }

end ApiDocs

namespace ApiDocs

/-! Claims about the export handler. -/

/-- Claim C1: when the platform export succeeds with document D the
handler responds exactly once, with statusCode 200, the single header
Access-Control-Allow-Origin set to star, and body exactly D; it issues
exactly one platform call, does not crash, and performs no other
mutation of the document. -/
theorem export_success_pass_through (env : Env) (event : HttpEvent) (d : ExportData) :
    handler env event (fun _ => .ok d) =
      { platformCalls := [getExportParams env]
        callbackCalls := [.success
          { statusCode := 200
            headers := [("Access-Control-Allow-Origin", "*")]
            body := d.body }]
        crashed := false } := rfl

/-- Claim C2: when the platform call errors the handler reports exactly
that error through the callback, issues exactly one platform call (no
retry), and no success response carrying a document is ever produced. -/
theorem export_error_propagates (env : Env) (event : HttpEvent) (e : ApiError) :
    (handler env event (fun _ => .error e)).callbackCalls = [.failure e] ∧
    (handler env event (fun _ => .error e)).platformCalls.length = 1 ∧
    (∀ r : HttpResponse,
      CallbackCall.success r ∉ (handler env event (fun _ => .error e)).callbackCalls) := by
  refine ⟨rfl, rfl, ?_⟩
  intro r hr
  simp [handler, getExportCallback] at hr

/-- Claim C4: on a platform error the error branch does not terminate
the callback; after reporting the error the handler still reaches the
unguarded dereference of data.body, which raises because data is absent
(crashed is true). -/
theorem export_error_still_dereferences (env : Env) (event : HttpEvent) (e : ApiError) :
    (handler env event (fun _ => .error e)).crashed = true ∧
    (handler env event (fun _ => .error e)).callbackCalls = [.failure e] := ⟨rfl, rfl⟩

/-- Claim C9: every export request carries exportType oas30 and exactly
the documentation extension, whatever the environment holds; in
particular the extensions value of the environment does not influence
the request. -/
theorem export_params_fixed_constants (env : Env) :
    (getExportParams env).exportType = "oas30" ∧
    (getExportParams env).parameters = [("extensions", "documentation")] ∧
    (∀ x : String, getExportParams { env with extensions := x } = getExportParams env) :=
  ⟨rfl, rfl, fun _ => rfl⟩

/-- Claim C10: the platform request of the handler is independent of the
incoming HTTP event; with the same environment, any two events produce
the same platform calls, and in fact the same whole outcome. -/
theorem export_event_independent (env : Env) (e1 e2 : HttpEvent)
    (platform : GetExportRequest → Except ApiError ExportData) :
    (handler env e1 platform).platformCalls = (handler env e2 platform).platformCalls ∧
    handler env e1 platform = handler env e2 platform := ⟨rfl, rfl⟩

/-- Claim C3, counterexample: with an empty restApiId the handler still
issues the platform export call (carrying the empty id); no local
validation happens first. -/
theorem export_empty_apiId_calls_platform :
    (handler { restApiId := "", stage := "prod", extensions := "apigateway" }
        { rawPath := "/api-docs/api-docs.json", rawQueryString := "",
          headers := [], body := none }
        (fun _ => .ok { body := "doc" })).platformCalls =
      [{ restApiId := "", stageName := "prod", exportType := "oas30",
         parameters := [("extensions", "documentation")] }] ∧
    (handler { restApiId := "", stage := "prod", extensions := "apigateway" }
        { rawPath := "/api-docs/api-docs.json", rawQueryString := "",
          headers := [], body := none }
        (fun _ => .ok { body := "doc" })).platformCalls ≠ [] := ⟨rfl, by decide⟩

/-- Claim C3, amended: the handler performs no validation of apiId or
stage; for every environment, empty strings included, it issues exactly
one platform call built from the configured values, and no local
InvalidExportRequest failure exists. -/
theorem export_no_local_validation (env : Env) (event : HttpEvent)
    (platform : GetExportRequest → Except ApiError ExportData) :
    (handler env event platform).platformCalls = [getExportParams env] := rfl

end ApiDocs

namespace ApiDocs

/-! Stack embedding (src/lib/api-docs-stack.ts). -/

/-- A JS Date value observed through the two operations the stack uses
on it: the millisecond timestamp and the ISO rendering. -/
structure Date where
  getTime : Nat
  toISOString : String
deriving DecidableEq

/-- Decimal rendering of a number, as the JS template literal over
getTime produces it. -/
def jsNatToString (n : Nat) : String :=
  if n = 0 then "0"
  else List.asString (((Nat.digits 10 n).reverse).map Nat.digitChar)

/-- Numeric value of a decimal string (big-endian Horner fold). -/
def decimalValue (s : String) : Nat :=
  s.data.foldl (fun acc c => 10 * acc + (c.toNat - 48)) 0

theorem digitChar_toNat (d : Nat) (h : d < 10) : (Nat.digitChar d).toNat = 48 + d := by
  interval_cases d <;> rfl

theorem foldl_horner (l : List Nat) (a : Nat) :
    List.foldl (fun acc d => 10 * acc + d) a l.reverse =
      a * 10 ^ l.length + Nat.ofDigits 10 l := by
  induction l generalizing a with
  | nil => simp
  | cons d t ih =>
    simp only [List.reverse_cons, List.foldl_append, List.foldl_cons, List.foldl_nil,
      List.length_cons, Nat.ofDigits_cons, Nat.cast_id, ih]
    ring

theorem foldl_map_digitChar (l : List Nat) (h : ∀ d ∈ l, d < 10) (a : Nat) :
    List.foldl (fun acc c => 10 * acc + (c.toNat - 48)) a (l.map Nat.digitChar) =
      List.foldl (fun acc d => 10 * acc + d) a l := by
  induction l generalizing a with
  | nil => rfl
  | cons d t ih =>
    have hd : d < 10 := h d (List.mem_cons_self d t)
    simp only [List.map_cons, List.foldl_cons, digitChar_toNat d hd]
    rw [show 48 + d - 48 = d by omega]
    exact ih (fun x hx => h x (List.mem_cons_of_mem d hx)) _

theorem decimalValue_jsNatToString (n : Nat) : decimalValue (jsNatToString n) = n := by
  by_cases h0 : n = 0
  · subst h0; decide
  · unfold jsNatToString decimalValue
    rw [if_neg h0]
    have hdata : (List.asString (((Nat.digits 10 n).reverse).map Nat.digitChar)).data =
        ((Nat.digits 10 n).reverse).map Nat.digitChar := rfl
    rw [hdata, foldl_map_digitChar _ ?mem 0, foldl_horner]
    case mem =>
      intro d hd
      rw [List.mem_reverse] at hd
      exact Nat.digits_lt_base (by norm_num) hd
    simp [Nat.ofDigits_digits]

theorem jsNatToString_injective {m n : Nat} (h : jsNatToString m = jsNatToString n) :
    m = n := by
  have hm := decimalValue_jsNatToString m
  have hn := decimalValue_jsNatToString n
  rw [← hm, ← hn, h]

/-- Props of the CfnDocumentationVersion resource. -/
structure DocumentationVersionProps where
  restApiId : String
  documentationVersion : String
  description : String
deriving DecidableEq

/-- The CfnDocumentationVersion the stack creates in createApi: the
version id is the millisecond timestamp rendered in decimal, the
description embeds the ISO rendering of the same instant. -/
def docsVersionProps (restApiId : String) (now : Date) : DocumentationVersionProps :=
  { restApiId := restApiId
    documentationVersion := jsNatToString now.getTime
    description := "Documentation generated at " ++ now.toISOString }

/-- Creation instant of a snapshot: the Date captured once by createApi. -/
def snapshotCreatedAt (now : Date) : Nat := now.getTime

/-- The closed enumeration of documentation part location types. -/
inductive LocationType where
  | API
  | AUTHORIZER
  | RESOURCE
  | METHOD
  | PATH_PARAMETER
  | QUERY_PARAMETER
  | REQUEST_HEADER
  | RESPONSE_HEADER
  | MODEL
deriving DecidableEq

/-- Addressing tuple of a documentation part. -/
structure LocationKey where
  locationType : LocationType
  name : Option String
  path : Option String
  method : Option String
deriving DecidableEq

structure License where
  name : String
  url : String
deriving DecidableEq

structure Contact where
  name : String
  email : String
  url : String
deriving DecidableEq

/-- The info object of the API level documentation part. -/
structure InfoObject where
  title : String
  description : String
  summary : String
  license : License
  contact : Contact
deriving DecidableEq

/-- Artifacts produced by one run of createApi: deployment description,
API description, the documentation version and the API level
documentation part (location and info payload). -/
structure CreateApiResult where
  deploymentDescription : String
  apiDescription : String
  docsVersion : DocumentationVersionProps
  apiDocsLocation : LocationKey
  apiDocsInfo : InfoObject
deriving DecidableEq

/-- createApi captures now once and derives every artifact from it. -/
def createApi (restApiId : String) (now : Date) : CreateApiResult :=
  { deploymentDescription := "Description of deployment at " ++ now.toISOString
    apiDescription := "Blabla description"
    docsVersion := docsVersionProps restApiId now
    apiDocsLocation := { locationType := .API, name := none, path := none, method := none }
    apiDocsInfo :=
      { title := "A custom title"
        description := "Documentation description generated at " ++ now.toISOString
        summary := "Documentation summary generated at " ++ now.toISOString
        license := { name := "MIT", url := "https://opensource.org/licenses/MIT" }
        contact := { name := "Some person", email := "example@example.com",
                     url := "https://example.com" } } }

/-- Location of the authorizer documentation part. -/
def authorizerDocLocation : LocationKey :=
  { locationType := .AUTHORIZER, name := some "SomeAuthorizer", path := none, method := none }

/-- Location of the todoId path parameter documentation part; the path
is the one of the todo route computed by the CDK tree. -/
def todoIdDocsLocation (todoPath : String) : LocationKey :=
  { locationType := .PATH_PARAMETER, name := some "todoId", path := some todoPath,
    method := some "GET" }

/-- Location of the Authorization request header documentation part. -/
def listTodosAuthHeaderLocation (todoPath : String) : LocationKey :=
  { locationType := .REQUEST_HEADER, name := some "Authorization", path := some todoPath,
    method := some "GET" }

/-- Which of name, path and method a location type requires. -/
structure FieldRequirement where
  name : Bool
  path : Bool
  method : Bool
deriving DecidableEq

/-- Modelled from the spec: the required-field table of the Location Key
Model (sections 3, 4.1, 8). The validator itself is not in src, it lives
in the hosting platform; the spec fixes the table for API, AUTHORIZER,
RESOURCE, PATH_PARAMETER and REQUEST_HEADER, and the general rule of
section 3 settles the remaining types. -/
def requiredFields : LocationType → FieldRequirement
  | .API => ⟨false, false, false⟩
  | .AUTHORIZER => ⟨true, false, false⟩
  | .RESOURCE => ⟨false, true, false⟩
  | .METHOD => ⟨false, true, true⟩
  | .PATH_PARAMETER => ⟨true, true, true⟩
  | .QUERY_PARAMETER => ⟨true, true, true⟩
  | .REQUEST_HEADER => ⟨true, true, true⟩
  | .RESPONSE_HEADER => ⟨true, true, true⟩
  | .MODEL => ⟨true, false, false⟩

/-- Error taxonomy of the registry side. -/
inductive RegError where
  | MalformedLocationKey
  | PlatformRejected
  | TransientPlatformError
deriving DecidableEq

/-- Modelled from the spec: section 4.1 validation — exactly the fields
required by the locationType are present and all others absent,
otherwise MalformedLocationKey. -/
def validateLocationKey (k : LocationKey) : Except RegError Unit :=
  let req := requiredFields k.locationType
  if k.name.isSome == req.name && k.path.isSome == req.path && k.method.isSome == req.method
  then .ok () else .error .MalformedLocationKey

/-- Outcome of one register call: platform submissions made and result. -/
structure RegisterOutcome where
  platformCalls : List (LocationKey × String)
  result : Except RegError String

/-- Modelled from the spec: section 4.2 register — validate the location
key first and only on success submit the fragment to the platform. -/
def register (k : LocationKey) (properties : String)
    (platform : LocationKey → String → Except RegError String) : RegisterOutcome :=
  match validateLocationKey k with
  | .error e => { platformCalls := [], result := .error e }
  | .ok _ => { platformCalls := [(k, properties)], result := platform k properties }

end ApiDocs

namespace ApiDocs

/-! Claims about the stack. -/

/-- Claim C5: two snapshot creations at different instants, whatever the
descriptions, yield distinct version ids and distinct creation times;
the version id is the decimal rendering of the creation time and its
numeric value grows strictly with it. -/
theorem snapshot_version_distinct_monotone (r1 r2 : String) (d1 d2 : Date)
    (h : d1.getTime ≠ d2.getTime) :
    (docsVersionProps r1 d1).documentationVersion ≠
      (docsVersionProps r2 d2).documentationVersion ∧
    snapshotCreatedAt d1 ≠ snapshotCreatedAt d2 ∧
    (docsVersionProps r1 d1).documentationVersion = jsNatToString (snapshotCreatedAt d1) ∧
    (d1.getTime < d2.getTime →
      decimalValue (docsVersionProps r1 d1).documentationVersion <
        decimalValue (docsVersionProps r2 d2).documentationVersion) := by
  refine ⟨?_, h, rfl, ?_⟩
  · intro he
    exact h (jsNatToString_injective he)
  · intro hlt
    have e1 : decimalValue (docsVersionProps r1 d1).documentationVersion = d1.getTime :=
      decimalValue_jsNatToString d1.getTime
    have e2 : decimalValue (docsVersionProps r2 d2).documentationVersion = d2.getTime :=
      decimalValue_jsNatToString d2.getTime
    rw [e1, e2]
    exact hlt

/-- Witness for claim C5 at two concrete creation instants. -/
theorem snapshot_version_distinct_monotone_witness :
    (⟨1, "t1"⟩ : Date).getTime ≠ (⟨2, "t2"⟩ : Date).getTime ∧
    ((docsVersionProps "api" ⟨1, "t1"⟩).documentationVersion ≠
        (docsVersionProps "api" ⟨2, "t2"⟩).documentationVersion ∧
      snapshotCreatedAt ⟨1, "t1"⟩ ≠ snapshotCreatedAt ⟨2, "t2"⟩ ∧
      (docsVersionProps "api" ⟨1, "t1"⟩).documentationVersion =
        jsNatToString (snapshotCreatedAt ⟨1, "t1"⟩) ∧
      ((⟨1, "t1"⟩ : Date).getTime < (⟨2, "t2"⟩ : Date).getTime →
        decimalValue (docsVersionProps "api" ⟨1, "t1"⟩).documentationVersion <
          decimalValue (docsVersionProps "api" ⟨2, "t2"⟩).documentationVersion)) :=
  ⟨by decide,
    snapshot_version_distinct_monotone "api" "api" ⟨1, "t1"⟩ ⟨2, "t2"⟩ (by decide)⟩

/-- Claim C6: one registration pass captures now exactly once; the
deployment description, the documentation version description and the
descriptions of the API level documentation part all embed one and the
same timestamp. -/
theorem createApi_single_timestamp (r : String) (now : Date) :
    ∃ ts : String,
      (createApi r now).deploymentDescription = "Description of deployment at " ++ ts ∧
      (createApi r now).docsVersion.description = "Documentation generated at " ++ ts ∧
      (createApi r now).apiDocsInfo.description =
        "Documentation description generated at " ++ ts ∧
      (createApi r now).apiDocsInfo.summary =
        "Documentation summary generated at " ++ ts :=
  ⟨now.toISOString, rfl, rfl, rfl, rfl⟩

/-- Claim C7: for the five tabulated location types exactly the required
fields are accepted and all other combinations rejected, and the four
documentation parts the stack creates all pass this validation. -/
theorem location_key_table (n p m : Option String) (r todoPath : String) (now : Date) :
    (validateLocationKey ⟨.API, n, p, m⟩ = .ok () ↔
      n = none ∧ p = none ∧ m = none) ∧
    (validateLocationKey ⟨.AUTHORIZER, n, p, m⟩ = .ok () ↔
      n.isSome = true ∧ p = none ∧ m = none) ∧
    (validateLocationKey ⟨.PATH_PARAMETER, n, p, m⟩ = .ok () ↔
      n.isSome = true ∧ p.isSome = true ∧ m.isSome = true) ∧
    (validateLocationKey ⟨.REQUEST_HEADER, n, p, m⟩ = .ok () ↔
      n.isSome = true ∧ p.isSome = true ∧ m.isSome = true) ∧
    (validateLocationKey ⟨.RESOURCE, n, p, m⟩ = .ok () ↔
      n = none ∧ p.isSome = true ∧ m = none) ∧
    validateLocationKey (createApi r now).apiDocsLocation = .ok () ∧
    validateLocationKey authorizerDocLocation = .ok () ∧
    validateLocationKey (todoIdDocsLocation todoPath) = .ok () ∧
    validateLocationKey (listTodosAuthHeaderLocation todoPath) = .ok () := by
  refine ⟨?_, ?_, ?_, ?_, ?_, rfl, rfl, rfl, rfl⟩ <;>
    cases n <;> cases p <;> cases m <;>
      simp [validateLocationKey, requiredFields]

/-- Claim C8: registering a PATH_PARAMETER fragment with the method
field absent fails locally with MalformedLocationKey and the platform is
never contacted, whatever name, path, properties and platform are. -/
theorem register_path_parameter_missing_method (n p : Option String) (props : String)
    (platform : LocationKey → String → Except RegError String) :
    (register ⟨.PATH_PARAMETER, n, p, none⟩ props platform).result =
      .error .MalformedLocationKey ∧
    (register ⟨.PATH_PARAMETER, n, p, none⟩ props platform).platformCalls = [] := by
  have hv : validateLocationKey ⟨.PATH_PARAMETER, n, p, none⟩ =
      .error .MalformedLocationKey := by
    simp [validateLocationKey, requiredFields]
  constructor <;> simp [register, hv]

end ApiDocs
